import Mathlib

/-!
Verification of the core subsystems of the airborne-detection geolocation
pipeline: the temporal synchronizer (`src/utils/data_sync.py`), the camera
model (`src/transform/camera_model.py`), the deferred-save identity tracker
(`src/detection/track_manager.py`) and the 3D attitude-corrected coordinate
transformer (`src/transform/coord_transform_new.py`).

Numeric conventions: Python floats are modelled as exact rationals (`ℚ`)
where the code only does field arithmetic and comparisons, and as real
numbers (`ℝ`) where the code uses trigonometry and square roots.  Python
dicts with optional keys are modelled as structures with `Option` fields;
`dict.get(k, default)` defaults are applied where the source applies them.
Logging and the mutable statistics counters are observability only and are
not modelled.
-/

namespace Shimahe

/-- One telemetry sample, as the pose dicts produced by the telemetry
readers: required `timestamp`/`latitude`/`longitude`/`altitude` keys,
optional attitude angles and an optional `frame_number` key
(`src/utils/data_sync.py` reads exactly these keys). -/
structure PoseRec where
  timestamp : ℚ
  latitude : ℚ
  longitude : ℚ
  altitude : ℚ
  yaw : Option ℚ
  pitch : Option ℚ
  roll : Option ℚ
  frame_number : Option ℤ
  deriving DecidableEq, Repr

/-- Configuration of `DataSynchronizer.__init__` (the buffer itself is
passed explicitly to the query operations below; `buffer_size` only bounds
the deque and does not affect a single query). -/
structure SyncConfig where
  sync_method : String
  timestamp_tolerance : ℚ
  max_time_diff : ℚ
  deriving DecidableEq, Repr

/-- The linear scan of `DataSynchronizer._sync_by_timestamp` (lines
113-122): fold over the buffer keeping the pose with the smallest
`|pose.timestamp - frame_timestamp|`; `min_diff` starts at `inf`, so the
first pose always replaces the empty accumulator, and a later pose replaces
it only when its difference is strictly smaller. -/
def scanStep (frame_timestamp : ℚ) (acc : Option (PoseRec × ℚ)) (pose : PoseRec) :
    Option (PoseRec × ℚ) :=
  let time_diff := |pose.timestamp - frame_timestamp|
  match acc with
  | none => some (pose, time_diff)
  | some (best, min_diff) =>
      if time_diff < min_diff then some (pose, time_diff) else some (best, min_diff)

/-- The full scan (lines 113-122), starting from the empty accumulator. -/
def scanBest (frame_timestamp : ℚ) (buffer : List PoseRec) : Option (PoseRec × ℚ) :=
  buffer.foldl (scanStep frame_timestamp) none

/-- `DataSynchronizer._sync_by_timestamp` (lines 93-144): nearest-neighbour
match, returned only when the minimal time difference is within
`max_time_diff`. -/
def sync_by_timestamp (cfg : SyncConfig) (buffer : List PoseRec)
    (frame_timestamp : ℚ) : Option PoseRec :=
  match scanBest frame_timestamp buffer with
  | none => none
  | some (best_pose, min_diff) =>
      if min_diff ≤ cfg.max_time_diff then some best_pose else none

/-- `DataSynchronizer._sync_by_frame_number` (lines 146-164): first pose
whose `frame_number` key is present and equals the queried frame number. -/
def sync_by_frame_number (buffer : List PoseRec) (fn : ℤ) : Option PoseRec :=
  buffer.find? (fun pose => pose.frame_number = some fn)

/-- `DataSynchronizer.sync_frame_with_pose` (lines 63-91): empty buffer
means no match; otherwise dispatch on the configured sync method. -/
def sync_frame_with_pose (cfg : SyncConfig) (buffer : List PoseRec)
    (frame_timestamp : ℚ) (frame_number : Option ℤ) : Option PoseRec :=
  if buffer.length = 0 then none
  else if cfg.sync_method = "timestamp" then
    sync_by_timestamp cfg buffer frame_timestamp
  else if cfg.sync_method = "frame_number" ∧ frame_number.isSome then
    match frame_number with
    | some fn => sync_by_frame_number buffer fn
    | none => none
  else none

/-- Timestamp order used to model Python's stable `sorted(poses, key=lambda
x: x['timestamp'])` in `DataSynchronizer.interpolate_pose` (line 186). -/
def poseLE (a b : PoseRec) : Prop := a.timestamp ≤ b.timestamp

instance : DecidableRel poseLE := fun a b => inferInstanceAs (Decidable (a.timestamp ≤ b.timestamp))

instance : IsTotal PoseRec poseLE := ⟨fun a b => le_total a.timestamp b.timestamp⟩

instance : IsTrans PoseRec poseLE := ⟨fun _ _ _ h h' => le_trans h h'⟩

/-- Stable sort of the sample list by timestamp (Python's `sorted` is a
stable sort; `List.insertionSort` with `poseLE` is stable as well). -/
def sortPoses (poses : List PoseRec) : List PoseRec := poses.insertionSort poseLE

/-- The bracketing scan of `DataSynchronizer.interpolate_pose` (lines
188-197): walk the sorted list; every pose with `timestamp ≤ t` overwrites
`before_pose`; the first pose with `timestamp ≥ t` becomes `after_pose` and
the loop breaks.  Returns the final `(before_pose, after_pose)` pair. -/
def findBracket (t : ℚ) : List PoseRec → Option PoseRec → Option PoseRec × Option PoseRec
  | [], before => (before, none)
  | pose :: rest, before =>
      let before' := if pose.timestamp ≤ t then some pose else before
      if t ≤ pose.timestamp then (before', some pose)
      else findBracket t rest before'

/-- The interpolated sample built at lines 205-227 of
`DataSynchronizer.interpolate_pose`: ratio `(t - t1)/(t2 - t1)` guarded to
`0` when `t2 = t1`; latitude/longitude/altitude always interpolated;
yaw/pitch/roll interpolated only when the key is present in both endpoint
samples; the result carries the frame timestamp and no `frame_number`. -/
def lerpPose (t : ℚ) (before_pose after_pose : PoseRec) : PoseRec :=
  let t1 := before_pose.timestamp
  let t2 := after_pose.timestamp
  let r := if t2 ≠ t1 then (t - t1) / (t2 - t1) else 0
  { timestamp := t
    latitude := before_pose.latitude + r * (after_pose.latitude - before_pose.latitude)
    longitude := before_pose.longitude + r * (after_pose.longitude - before_pose.longitude)
    altitude := before_pose.altitude + r * (after_pose.altitude - before_pose.altitude)
    yaw :=
      match before_pose.yaw, after_pose.yaw with
      | some y1, some y2 => some (y1 + r * (y2 - y1))
      | _, _ => none
    pitch :=
      match before_pose.pitch, after_pose.pitch with
      | some p1, some p2 => some (p1 + r * (p2 - p1))
      | _, _ => none
    roll :=
      match before_pose.roll, after_pose.roll with
      | some r1, some r2 => some (r1 + r * (r2 - r1))
      | _, _ => none
    frame_number := none }

/-- `DataSynchronizer.interpolate_pose` (lines 166-230): fewer than two
samples is rejected; otherwise sort, find the bracketing pair, clamp to
`sorted_poses[0]` when no sample lies at or before `t`, clamp to
`sorted_poses[-1]` when no sample lies at or after `t`, and otherwise
linearly interpolate.  The Python code indexes `sorted_poses[0]` and
`sorted_poses[-1]` directly, which cannot fail for two or more samples; the
`[]` branch below is unreachable under the length guard. -/
def interpolate_pose (frame_timestamp : ℚ) (poses : List PoseRec) : Option PoseRec :=
  if poses.length < 2 then none
  else
    match sortPoses poses with
    | [] => none
    | s0 :: rest =>
        match findBracket frame_timestamp (s0 :: rest) none with
        | (none, _) => some s0
        | (some _, none) => some ((s0 :: rest).getLast (List.cons_ne_nil s0 rest))
        | (some before_pose, some after_pose) =>
            some (lerpPose frame_timestamp before_pose after_pose)

/-- The intrinsic parameters of `CameraModel` (`src/transform/camera_model.py`,
`_parse_config`) that `calculate_gsd` reads.  Sizes in millimetres, image
dimensions in pixels. -/
structure CameraModel where
  sensor_width : ℚ
  sensor_height : ℚ
  focal_length : ℚ
  image_width : ℚ
  image_height : ℚ
  deriving DecidableEq, Repr

/-- `CameraModel.calculate_gsd` (lines 110-124):
`gsd = sensor_size * altitude / (focal_length * image_size)` per axis. -/
def calculate_gsd (cam : CameraModel) (altitude : ℚ) : ℚ × ℚ :=
  ((cam.sensor_width * altitude) / (cam.focal_length * cam.image_width),
   (cam.sensor_height * altitude) / (cam.focal_length * cam.image_height))

/-- `CameraModel.pixel_to_normalized` (lines 126-140). -/
def pixel_to_normalized (cx cy focal_length : ℚ) (u v : ℚ) : ℚ × ℚ :=
  ((u - cx) / focal_length, (v - cy) / focal_length)

/-- One detection dict as consumed by `TrackManager`
(`src/detection/track_manager.py`): `_calc_quality` reads `confidence`,
`is_on_edge` and `corners`; `update` reads `track_id`.  The image-crop
fields are irrelevant to the buffered-score logic and omitted. -/
structure Detection where
  track_id : Option ℤ
  confidence : ℚ
  is_on_edge : Bool
  corners : List (ℚ × ℚ)
  deriving DecidableEq, Repr

/-- Configuration of `TrackManager.__init__` (lines 40-46). -/
structure TrackConfig where
  lost_threshold : ℤ
  edge_penalty : ℚ
  min_track_frames : ℤ
  deriving DecidableEq, Repr

/-- Maximum of a list of rationals, as Python's `max` on a non-empty list
(`0` on the empty list, which `_calc_quality` never hits because it only
takes maxima of `≥ 4` corner coordinates). -/
def listMax : List ℚ → ℚ
  | [] => 0
  | x :: xs => xs.foldl max x

/-- Minimum of a list of rationals (see `listMax`). -/
def listMin : List ℚ → ℚ
  | [] => 0
  | x :: xs => xs.foldl min x

/-- `TrackManager._calc_quality` (lines 192-212):
`score = confidence * edge_factor * (1 + area_bonus)` with
`edge_factor = edge_penalty` when the detection touches the border and `1`
otherwise, and `area_bonus = min(w * h / 1e6, 0.5)` from the corner
bounding box when at least four corners are given. -/
def calc_quality (cfg : TrackConfig) (det : Detection) : ℚ :=
  let edge_factor := if det.is_on_edge then cfg.edge_penalty else 1
  let area_bonus :=
    if 4 ≤ det.corners.length then
      let w := listMax (det.corners.map Prod.fst) - listMin (det.corners.map Prod.fst)
      let h := listMax (det.corners.map Prod.snd) - listMin (det.corners.map Prod.snd)
      min (w * h / 1000000) (1 / 2)
    else 0
  det.confidence * edge_factor * (1 + area_bonus)

section Tracker

-- `F` abstracts the numpy frame image buffered by `_prepare_frame_buffer`
-- and `P` the pose dict copied into the snapshot; their contents never
-- influence the tracker's control flow.
variable {F P : Type}

/-- `TrackState` (`src/detection/track_manager.py`, lines 16-27): the
per-track buffer of the best snapshot seen so far. -/
structure TrackState (F P : Type) where
  track_id : ℤ
  best_detection : Detection
  best_frame : F
  best_pose : P
  best_frame_number : ℤ
  best_score : ℚ
  first_seen : ℤ
  last_seen : ℤ
  total_appearances : ℤ
  deriving DecidableEq

/-- The `active_tracks` dict, as an association list keyed by track id
(Python dict: insertion-ordered, unique keys). -/
def lookupTrack (tracks : List (ℤ × TrackState F P)) (tid : ℤ) : Option (TrackState F P) :=
  (tracks.find? (fun e => e.1 = tid)).map Prod.snd

/-- Replace the state stored under an existing key (in-place mutation of
`self.active_tracks[tid]`). -/
def replaceTrack (tracks : List (ℤ × TrackState F P)) (tid : ℤ)
    (st : TrackState F P) : List (ℤ × TrackState F P) :=
  tracks.map (fun e => if e.1 = tid then (e.1, st) else e)

/-- The body of the `for det in detections` loop of `TrackManager.update`
(lines 76-107): skip detections without a `track_id`; create a fresh
`TrackState` on first sighting; otherwise bump `last_seen` and
`total_appearances` and replace the best snapshot only when the new score
is strictly greater.  `prep` stands for `self._prepare_frame_buffer`. -/
def update_one (cfg : TrackConfig) (prep : F → Detection → F) (frame : F) (pose : P)
    (frame_number : ℤ) (tracks : List (ℤ × TrackState F P)) (det : Detection) :
    List (ℤ × TrackState F P) :=
  match det.track_id with
  | none => tracks
  | some tid =>
      let score := calc_quality cfg det
      match lookupTrack tracks tid with
      | none =>
          tracks ++ [(tid,
            { track_id := tid
              best_detection := det
              best_frame := prep frame det
              best_pose := pose
              best_frame_number := frame_number
              best_score := score
              first_seen := frame_number
              last_seen := frame_number
              total_appearances := 1 })]
      | some st =>
          let bumped := { st with last_seen := frame_number,
                                  total_appearances := st.total_appearances + 1 }
          let st' :=
            if st.best_score < score then
              { bumped with best_detection := det
                            best_frame := prep frame det
                            best_pose := pose
                            best_frame_number := frame_number
                            best_score := score }
            else bumped
          replaceTrack tracks tid st'

/-- `TrackManager.update` (lines 57-107): fold the per-detection body over
the detection list of one frame. -/
def trackUpdate (cfg : TrackConfig) (prep : F → Detection → F) (frame : F) (pose : P)
    (frame_number : ℤ) (tracks : List (ℤ × TrackState F P)) (dets : List Detection) :
    List (ℤ × TrackState F P) :=
  dets.foldl (update_one cfg prep frame pose frame_number) tracks

/-- One frame's worth of arguments to `TrackManager.update`. -/
structure UpdateStep (F P : Type) where
  dets : List Detection
  frame : F
  pose : P
  frame_number : ℤ

/-- A sequence of `TrackManager.update` calls applied in order. -/
def applyUpdates (cfg : TrackConfig) (prep : F → Detection → F)
    (steps : List (UpdateStep F P)) (tracks : List (ℤ × TrackState F P)) :
    List (ℤ × TrackState F P) :=
  steps.foldl (fun tr s => trackUpdate cfg prep s.frame s.pose s.frame_number tr s.dets) tracks

/-- `TrackManager._should_output` (lines 169-171). -/
def should_output (cfg : TrackConfig) (st : TrackState F P) : Prop :=
  cfg.min_track_frames ≤ st.total_appearances

instance (cfg : TrackConfig) (st : TrackState F P) : Decidable (should_output cfg st) :=
  inferInstanceAs (Decidable (cfg.min_track_frames ≤ st.total_appearances))

/-- `TrackManager.flush_lost_tracks` (lines 109-144): tracks unseen for
more than `lost_threshold` frames are removed from the active set; those
passing `_should_output` are handed to `_output_track`.  Returns the
remaining active tracks and the list of states forwarded to the output
collaborator. -/
def flush_lost_tracks (cfg : TrackConfig) (current_frame : ℤ)
    (tracks : List (ℤ × TrackState F P)) :
    List (ℤ × TrackState F P) × List (TrackState F P) :=
  let lost := fun e : ℤ × TrackState F P => cfg.lost_threshold < current_frame - e.2.last_seen
  (tracks.filter (fun e => ¬ lost e),
   ((tracks.filter lost).filter (fun e => should_output cfg e.2)).map Prod.snd)

/-- `TrackManager.flush_all` (lines 146-167): every remaining track is
removed; those passing `_should_output` are forwarded, the rest discarded. -/
def flush_all (cfg : TrackConfig) (tracks : List (ℤ × TrackState F P)) :
    List (ℤ × TrackState F P) × List (TrackState F P) :=
  (([] : List (ℤ × TrackState F P)),
   (tracks.filter (fun e => should_output cfg e.2)).map Prod.snd)

end Tracker

/-! ### 3D attitude-corrected transform (`src/transform/coord_transform_new.py`)

Exact real arithmetic replaces the floating point of the source; rotation
matrices and 3-vectors are spelled out entrywise so that each entry can be
compared line by line with the numpy arrays in the source. -/

/-- Positioning state tag carried by pose dicts; the source compares the
`positioning_state` string against the literals below, any other value
behaving like plain GPS. -/
inductive PosState where
  | RTK_FIXED
  | RTK_FLOAT
  | DGPS
  | GPS
  deriving DecidableEq, Repr

/-- GPS quality classification returned by `evaluate_gps_quality`. -/
inductive QualityLevel where
  | INVALID
  | LOW
  | MEDIUM
  | HIGH
  | RTK
  deriving DecidableEq, Repr

/-- The pose dict as read by `pixel_to_geo_3d` (lines 449-455, with the
`.get` defaults already applied: missing position fields default to `0`,
`pitch` to `-90`) plus the GPS-quality fields read by
`evaluate_gps_quality` (lines 107-109, defaults `0` and `GPS`). -/
structure Pose3D where
  latitude : ℝ
  longitude : ℝ
  altitude : ℝ
  yaw : ℝ
  pitch : ℝ
  roll : ℝ
  gps_level : ℤ
  satellite_count : ℤ
  positioning_state : PosState

/-- GPS quality-control configuration (`CoordinateTransformerEnhanced.__init__`,
lines 62-66, with its defaults). -/
structure QualityConfig where
  enabled : Bool
  min_gps_level : ℤ
  min_satellite_count : ℤ
  skip_on_low_quality : Bool
  deriving DecidableEq, Repr

/-- `CoordinateTransformerEnhanced.evaluate_gps_quality` (lines 91-138).
The estimated error in metres is exact here (`ℚ`), keeping the gate
computable; `pixel_to_geo_3d` only branches on the middle `should_skip`
component. -/
def evaluate_gps_quality (qc : QualityConfig) (pose : Pose3D) : QualityLevel × Bool × ℚ :=
  if qc.enabled = false then (QualityLevel.MEDIUM, false, 5)
  else if pose.positioning_state = PosState.RTK_FIXED then (QualityLevel.RTK, false, 1 / 20)
  else if pose.positioning_state = PosState.RTK_FLOAT then (QualityLevel.HIGH, false, 1 / 2)
  else if pose.positioning_state = PosState.DGPS then (QualityLevel.HIGH, false, 2)
  else if pose.gps_level < qc.min_gps_level ∨ pose.satellite_count < qc.min_satellite_count then
    if qc.skip_on_low_quality then (QualityLevel.INVALID, true, 10)
    else (QualityLevel.LOW, false, 8)
  else if 5 ≤ pose.gps_level ∧ 15 ≤ pose.satellite_count then (QualityLevel.HIGH, false, 3)
  else (QualityLevel.MEDIUM, false, 5)

/-- A 3-vector (one row of the `(N, 3)` numpy ray arrays). -/
structure Vec3 where
  x : ℝ
  y : ℝ
  z : ℝ

/-- A 3×3 matrix, entries row-major as in the numpy literals. -/
structure Mat3 where
  m00 : ℝ
  m01 : ℝ
  m02 : ℝ
  m10 : ℝ
  m11 : ℝ
  m12 : ℝ
  m20 : ℝ
  m21 : ℝ
  m22 : ℝ

/-- Matrix product `A @ B`. -/
def mat3Mul (A B : Mat3) : Mat3 where
  m00 := A.m00 * B.m00 + A.m01 * B.m10 + A.m02 * B.m20
  m01 := A.m00 * B.m01 + A.m01 * B.m11 + A.m02 * B.m21
  m02 := A.m00 * B.m02 + A.m01 * B.m12 + A.m02 * B.m22
  m10 := A.m10 * B.m00 + A.m11 * B.m10 + A.m12 * B.m20
  m11 := A.m10 * B.m01 + A.m11 * B.m11 + A.m12 * B.m21
  m12 := A.m10 * B.m02 + A.m11 * B.m12 + A.m12 * B.m22
  m20 := A.m20 * B.m00 + A.m21 * B.m10 + A.m22 * B.m20
  m21 := A.m20 * B.m01 + A.m21 * B.m11 + A.m22 * B.m21
  m22 := A.m20 * B.m02 + A.m21 * B.m12 + A.m22 * B.m22

/-- Row-vector application `v @ R.T`, i.e. `R @ v` componentwise — the form
used in `_camera_to_body` and `_body_to_world`. -/
def mat3Act (R : Mat3) (v : Vec3) : Vec3 where
  x := R.m00 * v.x + R.m01 * v.y + R.m02 * v.z
  y := R.m10 * v.x + R.m11 * v.y + R.m12 * v.z
  z := R.m20 * v.x + R.m21 * v.y + R.m22 * v.z

/-- Degrees to radians, as `math.radians`. -/
noncomputable def radians (deg : ℝ) : ℝ := deg * Real.pi / 180

/-- `R_z` of `_build_rotation_matrix_numpy` (lines 160-164); argument in
radians. -/
noncomputable def rotZ (a : ℝ) : Mat3 :=
  ⟨Real.cos a, -Real.sin a, 0,
   Real.sin a, Real.cos a, 0,
   0, 0, 1⟩

/-- `R_y` of `_build_rotation_matrix_numpy` (lines 167-171). -/
noncomputable def rotY (a : ℝ) : Mat3 :=
  ⟨Real.cos a, 0, Real.sin a,
   0, 1, 0,
   -Real.sin a, 0, Real.cos a⟩

/-- `R_x` of `_build_rotation_matrix_numpy` (lines 174-178). -/
noncomputable def rotX (a : ℝ) : Mat3 :=
  ⟨1, 0, 0,
   0, Real.cos a, -Real.sin a,
   0, Real.sin a, Real.cos a⟩

/-- `CoordinateTransformerEnhanced._build_rotation_matrix_numpy` (lines
140-183): intrinsic Z-Y-X composite `R = R_z(yaw) @ R_y(pitch) @ R_x(roll)`
with angles given in degrees. -/
noncomputable def build_rotation_matrix_numpy (yaw pitch roll : ℝ) : Mat3 :=
  mat3Mul (rotZ (radians yaw)) (mat3Mul (rotY (radians pitch)) (rotX (radians roll)))

/-- Modelled from the scipy documentation: the scipy branch of
`_build_rotation_matrix` (line 199) calls
`Rotation.from_euler('zyx', [yaw, pitch, roll], degrees=True)`; a
lower-case axis sequence selects *extrinsic* rotations about the fixed
axes, whose composite matrix is `R_x(roll) @ R_y(pitch) @ R_z(yaw)`. -/
noncomputable def build_rotation_matrix_scipy (yaw pitch roll : ℝ) : Mat3 :=
  mat3Mul (rotX (radians roll)) (mat3Mul (rotY (radians pitch)) (rotZ (radians yaw)))

/-- `CoordinateTransformerEnhanced._pixel_to_camera_ray` (lines 205-237)
for one pixel: normalize the principal-point offset by the focal length,
append `z = 1`, and scale to unit Euclidean norm. -/
noncomputable def pixel_to_camera_ray (cx cy focal_length : ℝ) (p : ℝ × ℝ) : Vec3 :=
  let x_norm := (p.1 - cx) / focal_length
  let y_norm := (p.2 - cy) / focal_length
  let n := Real.sqrt (x_norm ^ 2 + y_norm ^ 2 + 1 ^ 2)
  ⟨x_norm / n, y_norm / n, 1 / n⟩

/-- The fixed camera-to-body axis remapping `R_cam_to_body` of
`_camera_to_body` (lines 256-260). -/
def R_cam_to_body : Mat3 :=
  ⟨0, 1, 0,
   1, 0, 0,
   0, 0, -1⟩

/-- `CoordinateTransformerEnhanced._camera_to_body` (lines 239-264) for one
ray: `rays_camera @ R_cam_to_body.T`. -/
def camera_to_body (ray : Vec3) : Vec3 := mat3Act R_cam_to_body ray

/-- `CoordinateTransformerEnhanced._body_to_world` (lines 266-283) for one
ray: `rays_body @ R.T`. -/
def body_to_world (R : Mat3) (ray : Vec3) : Vec3 := mat3Act R ray

/-- `CoordinateTransformerEnhanced._ray_ground_intersection` (lines
285-338): for each world ray solve `altitude + t * ray_z = 0`; rays almost
parallel to the ground (`|ray_z| < 1e-6`) or pointing away from it
(`t < 0`) contribute the placeholder point `[0, 0]`; all other rays
contribute the offset `(t * ray_x, t * ray_y)`.  Every input ray produces
exactly one output entry. -/
noncomputable def ray_ground_intersection (rays_world : List Vec3) (altitude : ℝ) :
    List (ℝ × ℝ) :=
  rays_world.map (fun ray =>
    if |ray.z| < 1e-6 then ((0 : ℝ), (0 : ℝ))
    else
      let t := -altitude / ray.z
      if t < 0 then ((0 : ℝ), (0 : ℝ))
      else (t * ray.x, t * ray.y))

/-- `CoordinateTransformerEnhanced._offset_to_latlon` (lines 340-377):
east/north metre offsets to latitude/longitude using the camera model's
metres-per-degree constants, the longitude delta scaled by
`cos(radians(drone_lat))`. -/
noncomputable def offset_to_latlon (meters_per_degree_lat meters_per_degree_lon : ℝ)
    (drone_lat drone_lon : ℝ) (offsets : List (ℝ × ℝ)) : List (ℝ × ℝ) :=
  offsets.map (fun o =>
    (drone_lat + o.2 / meters_per_degree_lat,
     drone_lon + o.1 / (meters_per_degree_lon * Real.cos (radians drone_lat))))

/-- `convert_wgs84_to_cgcs2000` (lines 379-406) in the
`enable_cgcs2000 = False` branch (pyproj unavailable): coordinates pass
through unchanged. -/
def convert_wgs84_to_cgcs2000 (coords : List (ℝ × ℝ)) : List (ℝ × ℝ) := coords

/-- Camera intrinsics and earth constants read by the 3D transform
(`self.camera.cx`, `.cy`, `.focal_length`, `.meters_per_degree_lat`,
`.meters_per_degree_lon`). -/
structure CameraIntrinsics where
  cx : ℝ
  cy : ℝ
  focal_length : ℝ
  meters_per_degree_lat : ℝ
  meters_per_degree_lon : ℝ

/-- `CoordinateTransformerEnhanced.pixel_to_geo_3d` (lines 408-485),
geo-coordinate component: quality gate, pixel → camera ray, camera → body,
body → world via the numpy rotation-matrix branch of
`_build_rotation_matrix`, ray-ground intersection, offset → WGS84, and the
pass-through datum conversion.  The returned `quality_info` dict is
reporting-only and not modelled. -/
noncomputable def pixel_to_geo_3d (cam : CameraIntrinsics) (qc : QualityConfig)
    (pixel_coords : List (ℝ × ℝ)) (pose : Pose3D) : List (ℝ × ℝ) :=
  let q := evaluate_gps_quality qc pose
  if q.2.1 then []
  else
    let rays_camera := pixel_coords.map (pixel_to_camera_ray cam.cx cam.cy cam.focal_length)
    let rays_body := rays_camera.map camera_to_body
    let R := build_rotation_matrix_numpy pose.yaw pose.pitch pose.roll
    let rays_world := rays_body.map (body_to_world R)
    let ground_offsets := ray_ground_intersection rays_world pose.altitude
    let coords_wgs84 :=
      offset_to_latlon cam.meters_per_degree_lat cam.meters_per_degree_lon
        pose.latitude pose.longitude ground_offsets
    convert_wgs84_to_cgcs2000 coords_wgs84

/-! ### Concrete inputs used by witnesses and counterexamples -/

/-- A buffered pose at timestamp 1000 ms (tolerance scenario of the spec). -/
def pose1000 : PoseRec :=
  { timestamp := 1000, latitude := 22, longitude := 114, altitude := 100,
    yaw := none, pitch := none, roll := none, frame_number := none }

/-- Timestamp-mode synchronizer configuration with the given tolerance. -/
def syncCfgWith (d : ℚ) : SyncConfig :=
  { sync_method := "timestamp", timestamp_tolerance := 100, max_time_diff := d }

/-- Interpolation sample at t = 0. -/
def poseT0 : PoseRec :=
  { timestamp := 0, latitude := 0, longitude := 0, altitude := 0,
    yaw := some 0, pitch := none, roll := none, frame_number := none }

/-- Interpolation sample at t = 10. -/
def poseT10 : PoseRec :=
  { timestamp := 10, latitude := 10, longitude := 20, altitude := 30,
    yaw := some 40, pitch := none, roll := none, frame_number := none }

/-- First of two samples sharing timestamp 5 (division-guard scenario). -/
def poseDupA : PoseRec :=
  { timestamp := 5, latitude := 1, longitude := 2, altitude := 3,
    yaw := none, pitch := none, roll := none, frame_number := none }

/-- Second of two samples sharing timestamp 5. -/
def poseDupB : PoseRec :=
  { timestamp := 5, latitude := 7, longitude := 8, altitude := 9,
    yaw := none, pitch := none, roll := none, frame_number := none }

/-- The test camera of `tests/test_coord_transform_new.py`: 4032×3024
pixels, 13.4×9.6 mm sensor, 7 mm focal length. -/
def testCam : CameraModel :=
  { sensor_width := 67 / 5, sensor_height := 48 / 5, focal_length := 7,
    image_width := 4032, image_height := 3024 }

/-- Default tracker configuration (`TrackManager.__init__`). -/
def trackCfg : TrackConfig :=
  { lost_threshold := 30, edge_penalty := 3 / 10, min_track_frames := 3 }

/-- A concrete detection carrying track id 1. -/
def detTrack1 : Detection :=
  { track_id := some 1, confidence := 11 / 20, is_on_edge := true,
    corners := [(0, 0), (100, 0), (100, 100), (0, 100)] }

/-- A weak edge detection for track id 1 (confidence 0.1, on the border,
no corners), scoring 3/100 under the default configuration. -/
def detLow : Detection :=
  { track_id := some 1, confidence := 1 / 10, is_on_edge := true, corners := [] }

/-- A tracker state for track id 1 with 5 appearances, last seen at frame
10, best score 1/2. -/
def stTrack1 : TrackState Unit Unit :=
  { track_id := 1, best_detection := detTrack1, best_frame := (), best_pose := (),
    best_frame_number := 4, best_score := 1 / 2, first_seen := 2, last_seen := 10,
    total_appearances := 5 }

/-- Quality-control configuration of the repository's transform tests. -/
def qcTest : QualityConfig :=
  { enabled := true, min_gps_level := 3, min_satellite_count := 10,
    skip_on_low_quality := true }

/-- The nadir test pose of `tests/test_coord_transform_new.py`
(`TEST_POSE_VERTICAL`). -/
noncomputable def poseNadir : Pose3D :=
  { latitude := 22779954 / 1000000, longitude := 114100891 / 1000000,
    altitude := 100, yaw := 0, pitch := -90, roll := 0,
    gps_level := 5, satellite_count := 18, positioning_state := PosState.GPS }

/-- Camera intrinsics of the test configuration together with the default
earth constants of `CameraModel`. -/
noncomputable def camTest : CameraIntrinsics :=
  { cx := 2016, cy := 1512, focal_length := 7,
    meters_per_degree_lat := 110540, meters_per_degree_lon := 111320 }

/-! ### Lemmas about the synchronizer scan -/

/-- Invariant of the nearest-neighbour fold: starting from an accumulator
holding a candidate and its true time difference, the fold returns a
candidate together with its true time difference, drawn from the
accumulator or the buffer, and the recorded minimum never increases. -/
theorem scanStep_foldl_inv (t : ℚ) :
    ∀ (buf : List PoseRec) (q : PoseRec) (m : ℚ), m = |q.timestamp - t| →
      ∀ p m', buf.foldl (scanStep t) (some (q, m)) = some (p, m') →
        m' = |p.timestamp - t| ∧ (p = q ∨ p ∈ buf) ∧ m' ≤ m := by
  intro buf
  induction buf with
  | nil =>
      intro q m hm p m' h
      simp only [List.foldl_nil, Option.some.injEq, Prod.mk.injEq] at h
      obtain ⟨hq, hmm⟩ := h
      subst hq
      subst hmm
      exact ⟨hm, Or.inl rfl, le_refl m⟩
  | cons x rest ih =>
      intro q m hm p m' h
      simp only [List.foldl_cons] at h
      by_cases hx : |x.timestamp - t| < m
      · have hstep : scanStep t (some (q, m)) x = some (x, |x.timestamp - t|) := by
          simp [scanStep, hx]
        rw [hstep] at h
        obtain ⟨h1, h2, h3⟩ := ih x _ rfl p m' h
        exact ⟨h1, Or.inr (h2.elim (fun e => e ▸ List.mem_cons_self x rest)
          (fun e => List.mem_cons_of_mem x e)), le_trans h3 hx.le⟩
      · have hstep : scanStep t (some (q, m)) x = some (q, m) := by
          simp [scanStep, hx]
        rw [hstep] at h
        obtain ⟨h1, h2, h3⟩ := ih q m hm p m' h
        exact ⟨h1, h2.elim Or.inl (fun e => Or.inr (List.mem_cons_of_mem x e)), h3⟩

/-- The scan of a non-empty buffer yields a buffered pose together with its
true time difference. -/
theorem scanBest_some (t : ℚ) (buf : List PoseRec) (p : PoseRec) (m : ℚ)
    (h : scanBest t buf = some (p, m)) : m = |p.timestamp - t| ∧ p ∈ buf := by
  cases buf with
  | nil => simp [scanBest] at h
  | cons x rest =>
      have hx : scanStep t none x = some (x, |x.timestamp - t|) := by simp [scanStep]
      rw [scanBest, List.foldl_cons, hx] at h
      obtain ⟨h1, h2, _⟩ := scanStep_foldl_inv t rest x _ rfl p m h
      exact ⟨h1, h2.elim (fun e => e ▸ List.mem_cons_self x rest)
        (fun e => List.mem_cons_of_mem x e)⟩

/-! ### Claim theorems: synchronizer and tracker -/

/-- C2: the timestamp-based resolve returns none on an empty buffer,
returns none when every buffered pose is farther than the tolerance, never
returns a pose farther than the tolerance, and on the concrete scenario
(pose at 1000 ms, frame at 1600 ms) returns none under tolerance 500 ms and
the pose under tolerance 1000 ms. -/
theorem sync_resolve_within_tolerance :
    (∀ (cfg : SyncConfig) (t : ℚ) (fn : Option ℤ),
        sync_frame_with_pose cfg [] t fn = none) ∧
    (∀ (cfg : SyncConfig) (buf : List PoseRec) (t : ℚ) (p : PoseRec),
        sync_by_timestamp cfg buf t = some p →
        |p.timestamp - t| ≤ cfg.max_time_diff ∧ p ∈ buf) ∧
    (∀ (cfg : SyncConfig) (buf : List PoseRec) (t : ℚ),
        (∀ q ∈ buf, cfg.max_time_diff < |q.timestamp - t|) →
        sync_by_timestamp cfg buf t = none) ∧
    (sync_frame_with_pose (syncCfgWith 500) [pose1000] 1600 none = none ∧
     sync_frame_with_pose (syncCfgWith 1000) [pose1000] 1600 none = some pose1000) := by
  refine ⟨?_, ?_, ?_,
    by norm_num [sync_frame_with_pose, sync_by_timestamp, scanBest, scanStep,
      syncCfgWith, pose1000],
    by norm_num [sync_frame_with_pose, sync_by_timestamp, scanBest, scanStep,
      syncCfgWith, pose1000]⟩
  · intro cfg t fn
    simp [sync_frame_with_pose]
  · intro cfg buf t p h
    unfold sync_by_timestamp at h
    cases hs : scanBest t buf with
    | none => rw [hs] at h; exact absurd h (by simp)
    | some qm =>
        obtain ⟨q, m⟩ := qm
        rw [hs] at h
        simp only at h
        by_cases hle : m ≤ cfg.max_time_diff
        · rw [if_pos hle] at h
          obtain ⟨hm, hmem⟩ := scanBest_some t buf q m hs
          cases h
          exact ⟨hm ▸ hle, hmem⟩
        · rw [if_neg hle] at h
          exact absurd h (by simp)
  · intro cfg buf t hall
    unfold sync_by_timestamp
    cases hs : scanBest t buf with
    | none => rfl
    | some qm =>
        obtain ⟨q, m⟩ := qm
        obtain ⟨hm, hmem⟩ := scanBest_some t buf q m hs
        simp only
        rw [if_neg (by rw [hm]; exact not_le.mpr (hall q hmem))]

/-- Witness for C2: the tolerance-1000 scenario, resolved through the
claim theorem. -/
theorem sync_resolve_within_tolerance_witness :
    sync_by_timestamp (syncCfgWith 1000) [pose1000] 1600 = some pose1000 ∧
    (|pose1000.timestamp - 1600| ≤ (syncCfgWith 1000).max_time_diff ∧
      pose1000 ∈ [pose1000]) :=
  ⟨by norm_num [sync_by_timestamp, scanBest, scanStep, syncCfgWith, pose1000],
   sync_resolve_within_tolerance.2.1 (syncCfgWith 1000) [pose1000] 1600 pose1000
     (by norm_num [sync_by_timestamp, scanBest, scanStep, syncCfgWith, pose1000])⟩

/-- C7: a track removed from the active set by the per-frame lost-track
flush at frame `n` satisfies `lost_threshold + 1 ≤ n - last_seen`, and a
track whose gap is at most `lost_threshold` survives that flush. -/
theorem flush_lost_tracks_gap_bound :
    (∀ (F P : Type) (cfg : TrackConfig) (current : ℤ)
        (tracks : List (ℤ × TrackState F P)) (e : ℤ × TrackState F P),
        e ∈ tracks → e ∉ (flush_lost_tracks cfg current tracks).1 →
        cfg.lost_threshold + 1 ≤ current - e.2.last_seen) ∧
    (∀ (F P : Type) (cfg : TrackConfig) (current : ℤ)
        (tracks : List (ℤ × TrackState F P)) (e : ℤ × TrackState F P),
        e ∈ tracks → current - e.2.last_seen ≤ cfg.lost_threshold →
        e ∈ (flush_lost_tracks cfg current tracks).1) := by
  constructor
  · intro F P cfg current tracks e he hnot
    by_contra hlt
    exact hnot (by
      simp only [flush_lost_tracks, List.mem_filter, decide_eq_true_eq]
      exact ⟨he, by omega⟩)
  · intro F P cfg current tracks e he hgap
    simp only [flush_lost_tracks, List.mem_filter, decide_eq_true_eq]
    exact ⟨he, by omega⟩

/-- Witness for C7: a track last seen 10 frames ago survives the flush
under the default threshold of 30. -/
theorem flush_lost_tracks_gap_bound_witness :
    ((1, stTrack1) ∈ [(1, stTrack1)] ∧
      20 - stTrack1.last_seen ≤ trackCfg.lost_threshold) ∧
    (1, stTrack1) ∈ (flush_lost_tracks trackCfg 20 [(1, stTrack1)]).1 :=
  ⟨⟨by simp, by norm_num [stTrack1, trackCfg]⟩,
   flush_lost_tracks_gap_bound.2 Unit Unit trackCfg 20 [(1, stTrack1)] (1, stTrack1)
     (by simp) (by norm_num [stTrack1, trackCfg])⟩

/-- C3: neither the per-frame lost-track flush nor the shutdown flush ever
forwards a track with fewer than `min_track_frames` appearances to the
output collaborator. -/
theorem flush_respects_min_track_frames :
    (∀ (F P : Type) (cfg : TrackConfig) (current : ℤ)
        (tracks : List (ℤ × TrackState F P)) (st : TrackState F P),
        st ∈ (flush_lost_tracks cfg current tracks).2 →
        cfg.min_track_frames ≤ st.total_appearances) ∧
    (∀ (F P : Type) (cfg : TrackConfig)
        (tracks : List (ℤ × TrackState F P)) (st : TrackState F P),
        st ∈ (flush_all cfg tracks).2 →
        cfg.min_track_frames ≤ st.total_appearances) := by
  constructor
  · intro F P cfg current tracks st h
    simp only [flush_lost_tracks, List.mem_map, List.mem_filter,
      decide_eq_true_eq, should_output] at h
    obtain ⟨e, ⟨⟨_, _⟩, hq⟩, he⟩ := h
    exact he ▸ hq
  · intro F P cfg tracks st h
    simp only [flush_all, List.mem_map, List.mem_filter,
      decide_eq_true_eq, should_output] at h
    obtain ⟨e, ⟨_, hq⟩, he⟩ := h
    exact he ▸ hq

/-- Witness for C3: a 5-appearance track flushed as lost at frame 100
satisfies the 3-frame qualification. -/
theorem flush_respects_min_track_frames_witness :
    stTrack1 ∈ (flush_lost_tracks trackCfg 100 [(1, stTrack1)]).2 ∧
    trackCfg.min_track_frames ≤ stTrack1.total_appearances :=
  ⟨by norm_num [flush_lost_tracks, should_output, stTrack1, trackCfg],
   flush_respects_min_track_frames.1 Unit Unit trackCfg 100 [(1, stTrack1)] stTrack1
     (by norm_num [flush_lost_tracks, should_output, stTrack1, trackCfg])⟩

/-- C6 counterexample: at altitude zero the GSD comes out as exactly
`(0, 0)` — a finite zero value, not an infinite one (the altitude is a
factor of the numerator, not a divisor). -/
theorem calculate_gsd_zero_altitude_value : calculate_gsd testCam 0 = (0, 0) := by
  norm_num [calculate_gsd, testCam]

/-- C6 (amended): `calculate_gsd` computes
`sensor * altitude / (focal * image)` per axis, silently returns the
degenerate zero pair at altitude zero rather than raising, and scales
linearly in the altitude, so doubling the altitude doubles both
components. -/
theorem calculate_gsd_formula_zero_linear :
    (∀ (cam : CameraModel) (altitude : ℚ),
        calculate_gsd cam altitude =
          ((cam.sensor_width * altitude) / (cam.focal_length * cam.image_width),
           (cam.sensor_height * altitude) / (cam.focal_length * cam.image_height))) ∧
    (∀ cam : CameraModel, calculate_gsd cam 0 = (0, 0)) ∧
    (∀ (cam : CameraModel) (altitude : ℚ), 0 < altitude →
        calculate_gsd cam (2 * altitude) =
          (2 * (calculate_gsd cam altitude).1, 2 * (calculate_gsd cam altitude).2)) := by
  refine ⟨fun cam altitude => rfl, fun cam => by simp [calculate_gsd], ?_⟩
  intro cam altitude _
  simp only [calculate_gsd, Prod.mk.injEq]
  constructor <;> ring

/-- Witness for C6: doubling altitude 50 doubles both GSD components of the
test camera. -/
theorem calculate_gsd_formula_zero_linear_witness :
    (0 : ℚ) < 50 ∧
    calculate_gsd testCam (2 * 50) =
      (2 * (calculate_gsd testCam 50).1, 2 * (calculate_gsd testCam 50).2) :=
  ⟨by norm_num, calculate_gsd_formula_zero_linear.2.2 testCam 50 (by norm_num)⟩

/-! ### Lemmas about the tracker's keyed store -/

theorem lookupTrack_cons {F P : Type} (e : ℤ × TrackState F P)
    (rest : List (ℤ × TrackState F P)) (tid : ℤ) :
    lookupTrack (e :: rest) tid =
      if e.1 = tid then some e.2 else lookupTrack rest tid := by
  by_cases he : e.1 = tid <;> simp [lookupTrack, List.find?_cons, he]

theorem replaceTrack_cons {F P : Type} (e : ℤ × TrackState F P)
    (rest : List (ℤ × TrackState F P)) (tid : ℤ) (st : TrackState F P) :
    replaceTrack (e :: rest) tid st =
      (if e.1 = tid then (e.1, st) else e) :: replaceTrack rest tid st := rfl

theorem lookupTrack_append_of_some {F P : Type} {tracks : List (ℤ × TrackState F P)}
    {tid : ℤ} {st : TrackState F P} (l : List (ℤ × TrackState F P))
    (h : lookupTrack tracks tid = some st) :
    lookupTrack (tracks ++ l) tid = some st := by
  induction tracks with
  | nil => simp [lookupTrack] at h
  | cons e rest ih =>
      obtain ⟨k, v⟩ := e
      rw [List.cons_append, lookupTrack_cons]
      rw [lookupTrack_cons] at h
      by_cases he : k = tid
      · rw [if_pos he] at h
        rw [if_pos he]
        exact h
      · rw [if_neg he] at h
        rw [if_neg he]
        exact ih h

theorem lookupTrack_replaceTrack_self {F P : Type} {tracks : List (ℤ × TrackState F P)}
    {tid : ℤ} {st : TrackState F P} (st' : TrackState F P)
    (h : lookupTrack tracks tid = some st) :
    lookupTrack (replaceTrack tracks tid st') tid = some st' := by
  induction tracks with
  | nil => simp [lookupTrack] at h
  | cons e rest ih =>
      obtain ⟨k, v⟩ := e
      rw [lookupTrack_cons] at h
      by_cases he : k = tid
      · rw [replaceTrack_cons]
        simp only [if_pos he]
        rw [lookupTrack_cons]
        simp only [if_pos he]
      · rw [if_neg he] at h
        rw [replaceTrack_cons]
        simp only [if_neg he]
        rw [lookupTrack_cons]
        simp only [if_neg he]
        exact ih h

theorem lookupTrack_replaceTrack_ne {F P : Type} (tracks : List (ℤ × TrackState F P))
    (tid tid' : ℤ) (st' : TrackState F P) (hne : tid ≠ tid') :
    lookupTrack (replaceTrack tracks tid' st') tid = lookupTrack tracks tid := by
  induction tracks with
  | nil => simp [lookupTrack, replaceTrack]
  | cons e rest ih =>
      obtain ⟨k, v⟩ := e
      rw [replaceTrack_cons, lookupTrack_cons]
      by_cases he : k = tid'
      · have hk : k ≠ tid := fun hc => hne (hc.symm.trans he)
        simp only [if_pos he]
        rw [lookupTrack_cons]
        simp only
        rw [if_neg hk, if_neg hk, ih]
      · simp only [if_neg he]
        rw [lookupTrack_cons]
        by_cases hk : k = tid
        · rw [if_pos hk, if_pos hk]
        · rw [if_neg hk, if_neg hk, ih]

/-- Equation lemma: a detection without a `track_id` leaves the store
unchanged. -/
theorem update_one_eq_skip {F P : Type} (cfg : TrackConfig) (prep : F → Detection → F)
    (frame : F) (pose : P) (n : ℤ) (tracks : List (ℤ × TrackState F P)) (det : Detection)
    (hdet : det.track_id = none) :
    update_one cfg prep frame pose n tracks det = tracks := by
  simp [update_one, hdet]

/-- Equation lemma: the first sighting of a track id appends a fresh state
with appearance count 1 and score `calc_quality`. -/
theorem update_one_eq_new {F P : Type} (cfg : TrackConfig) (prep : F → Detection → F)
    (frame : F) (pose : P) (n : ℤ) (tracks : List (ℤ × TrackState F P)) (det : Detection)
    (tid : ℤ) (hdet : det.track_id = some tid) (hl : lookupTrack tracks tid = none) :
    update_one cfg prep frame pose n tracks det =
      tracks ++ [(tid,
        { track_id := tid, best_detection := det, best_frame := prep frame det,
          best_pose := pose, best_frame_number := n, best_score := calc_quality cfg det,
          first_seen := n, last_seen := n, total_appearances := 1 })] := by
  simp [update_one, hdet, hl]

/-- Equation lemma: a repeated sighting bumps `last_seen` and the
appearance counter, and replaces the best snapshot exactly when the new
score is strictly greater than the stored one. -/
theorem update_one_eq_existing {F P : Type} (cfg : TrackConfig) (prep : F → Detection → F)
    (frame : F) (pose : P) (n : ℤ) (tracks : List (ℤ × TrackState F P)) (det : Detection)
    (tid : ℤ) (st : TrackState F P) (hdet : det.track_id = some tid)
    (hl : lookupTrack tracks tid = some st) :
    update_one cfg prep frame pose n tracks det =
      replaceTrack tracks tid
        (if st.best_score < calc_quality cfg det then
          { st with best_detection := det, best_frame := prep frame det, best_pose := pose,
                    best_frame_number := n, best_score := calc_quality cfg det,
                    last_seen := n, total_appearances := st.total_appearances + 1 }
         else
          { st with last_seen := n, total_appearances := st.total_appearances + 1 }) := by
  by_cases hscore : st.best_score < calc_quality cfg det
  · simp [update_one, hdet, hl, hscore]
  · simp [update_one, hdet, hl, hscore]

/-- One `update` loop iteration never decreases the stored best score of
any track already in the store. -/
theorem update_one_score_mono {F P : Type} (cfg : TrackConfig) (prep : F → Detection → F)
    (frame : F) (pose : P) (n : ℤ) (tracks : List (ℤ × TrackState F P)) (det : Detection)
    (tid : ℤ) (st : TrackState F P) (h : lookupTrack tracks tid = some st) :
    ∃ st', lookupTrack (update_one cfg prep frame pose n tracks det) tid = some st' ∧
      st.best_score ≤ st'.best_score := by
  cases hdet : det.track_id with
  | none =>
      rw [update_one_eq_skip cfg prep frame pose n tracks det hdet]
      exact ⟨st, h, le_refl _⟩
  | some tid' =>
      by_cases htid : tid' = tid
      · subst htid
        rw [update_one_eq_existing cfg prep frame pose n tracks det tid' st hdet h]
        by_cases hscore : st.best_score < calc_quality cfg det
        · rw [if_pos hscore]
          exact ⟨_, lookupTrack_replaceTrack_self _ h, hscore.le⟩
        · rw [if_neg hscore]
          exact ⟨_, lookupTrack_replaceTrack_self _ h, le_refl _⟩
      · cases hl : lookupTrack tracks tid' with
        | none =>
            rw [update_one_eq_new cfg prep frame pose n tracks det tid' hdet hl]
            exact ⟨st, lookupTrack_append_of_some _ h, le_refl _⟩
        | some st0 =>
            rw [update_one_eq_existing cfg prep frame pose n tracks det tid' st0 hdet hl]
            refine ⟨st, ?_, le_refl _⟩
            rw [lookupTrack_replaceTrack_ne tracks tid tid' _ (fun e => htid e.symm)]
            exact h

/-- `TrackManager.update` over one frame's detections never decreases a
stored best score. -/
theorem trackUpdate_score_mono {F P : Type} (cfg : TrackConfig) (prep : F → Detection → F)
    (frame : F) (pose : P) (n : ℤ) (dets : List Detection) :
    ∀ (tracks : List (ℤ × TrackState F P)) (tid : ℤ) (st : TrackState F P),
      lookupTrack tracks tid = some st →
      ∃ st', lookupTrack (trackUpdate cfg prep frame pose n tracks dets) tid = some st' ∧
        st.best_score ≤ st'.best_score := by
  induction dets with
  | nil => exact fun tracks tid st h => ⟨st, h, le_refl _⟩
  | cons d rest ih =>
      intro tracks tid st h
      obtain ⟨st1, h1, hle1⟩ := update_one_score_mono cfg prep frame pose n tracks d tid st h
      obtain ⟨st2, h2, hle2⟩ := ih _ tid st1 h1
      exact ⟨st2, h2, le_trans hle1 hle2⟩

/-- A whole sequence of `TrackManager.update` calls never decreases a
stored best score. -/
theorem applyUpdates_score_mono {F P : Type} (cfg : TrackConfig) (prep : F → Detection → F)
    (steps : List (UpdateStep F P)) :
    ∀ (tracks : List (ℤ × TrackState F P)) (tid : ℤ) (st : TrackState F P),
      lookupTrack tracks tid = some st →
      ∃ st', lookupTrack (applyUpdates cfg prep steps tracks) tid = some st' ∧
        st.best_score ≤ st'.best_score := by
  induction steps with
  | nil => exact fun tracks tid st h => ⟨st, h, le_refl _⟩
  | cons s rest ih =>
      intro tracks tid st h
      obtain ⟨st1, h1, hle1⟩ :=
        trackUpdate_score_mono cfg prep s.frame s.pose s.frame_number s.dets tracks tid st h
      obtain ⟨st2, h2, hle2⟩ := ih _ tid st1 h1
      exact ⟨st2, h2, le_trans hle1 hle2⟩

/-- C4: on a repeated sighting the buffered best snapshot is replaced
exactly when the new detection scores strictly higher — otherwise every
`best_*` field is retained unchanged — and across any sequence of update
calls the buffered best score never decreases. -/
theorem track_best_snapshot_monotone :
    (∀ (F P : Type) (cfg : TrackConfig) (prep : F → Detection → F) (frame : F) (pose : P)
        (n : ℤ) (tracks : List (ℤ × TrackState F P)) (det : Detection) (tid : ℤ)
        (st : TrackState F P),
        det.track_id = some tid → lookupTrack tracks tid = some st →
        (calc_quality cfg det ≤ st.best_score →
          lookupTrack (update_one cfg prep frame pose n tracks det) tid =
            some { st with last_seen := n, total_appearances := st.total_appearances + 1 }) ∧
        (st.best_score < calc_quality cfg det →
          lookupTrack (update_one cfg prep frame pose n tracks det) tid =
            some { st with best_detection := det, best_frame := prep frame det,
                           best_pose := pose, best_frame_number := n,
                           best_score := calc_quality cfg det, last_seen := n,
                           total_appearances := st.total_appearances + 1 })) ∧
    (∀ (F P : Type) (cfg : TrackConfig) (prep : F → Detection → F)
        (steps : List (UpdateStep F P)) (tracks : List (ℤ × TrackState F P)) (tid : ℤ)
        (st : TrackState F P),
        lookupTrack tracks tid = some st →
        ∃ st', lookupTrack (applyUpdates cfg prep steps tracks) tid = some st' ∧
          st.best_score ≤ st'.best_score) := by
  constructor
  · intro F P cfg prep frame pose n tracks det tid st hdet hl
    constructor
    · intro hle
      rw [update_one_eq_existing cfg prep frame pose n tracks det tid st hdet hl,
        if_neg (not_lt.mpr hle)]
      exact lookupTrack_replaceTrack_self _ hl
    · intro hlt
      rw [update_one_eq_existing cfg prep frame pose n tracks det tid st hdet hl,
        if_pos hlt]
      exact lookupTrack_replaceTrack_self _ hl
  · exact fun F P cfg prep steps => applyUpdates_score_mono cfg prep steps

/-- Witness for C4: a weaker sighting (score 3/100 against stored 1/2)
leaves the buffered best snapshot untouched. -/
theorem track_best_snapshot_monotone_witness :
    (detLow.track_id = some 1 ∧ lookupTrack [(1, stTrack1)] 1 = some stTrack1 ∧
      calc_quality trackCfg detLow ≤ stTrack1.best_score) ∧
    lookupTrack (update_one trackCfg (fun f _ => f) () () 11 [(1, stTrack1)] detLow) 1 =
      some { stTrack1 with last_seen := 11,
                           total_appearances := stTrack1.total_appearances + 1 } :=
  ⟨⟨rfl, by simp [lookupTrack], by norm_num [calc_quality, detLow, trackCfg, stTrack1]⟩,
   ((track_best_snapshot_monotone.1 Unit Unit trackCfg (fun f _ => f) () () 11
      [(1, stTrack1)] detLow 1 stTrack1 rfl (by simp [lookupTrack])).1
      (by norm_num [calc_quality, detLow, trackCfg, stTrack1]))⟩

/-! ### Lemmas about pose interpolation -/

theorem findBracket_cons (t : ℚ) (p : PoseRec) (rest : List PoseRec)
    (acc : Option PoseRec) :
    findBracket t (p :: rest) acc =
      if t ≤ p.timestamp then ((if p.timestamp ≤ t then some p else acc), some p)
      else findBracket t rest (if p.timestamp ≤ t then some p else acc) := rfl

/-- The scan only ever stores a `before` sample at or before `t` and only
ever returns an `after` sample at or after `t`. -/
theorem findBracket_inv (t : ℚ) :
    ∀ (l : List PoseRec) (acc : Option PoseRec),
      (∀ x, acc = some x → x.timestamp ≤ t) →
      (∀ b, (findBracket t l acc).1 = some b → b.timestamp ≤ t) ∧
      (∀ a, (findBracket t l acc).2 = some a → t ≤ a.timestamp) := by
  intro l
  induction l with
  | nil =>
      intro acc hacc
      refine ⟨fun b hb => hacc b hb, fun a ha => ?_⟩
      simp [findBracket] at ha
  | cons p rest ih =>
      intro acc hacc
      have hacc' : ∀ x, (if p.timestamp ≤ t then some p else acc) = some x →
          x.timestamp ≤ t := by
        intro x hx
        by_cases hple : p.timestamp ≤ t
        · rw [if_pos hple] at hx
          cases hx
          exact hple
        · rw [if_neg hple] at hx
          exact hacc x hx
      rw [findBracket_cons]
      by_cases htp : t ≤ p.timestamp
      · rw [if_pos htp]
        refine ⟨fun b hb => hacc' b hb, fun a ha => ?_⟩
        cases ha
        exact htp
      · rw [if_neg htp]
        exact ih _ hacc'

/-- When every sample lies strictly before `t`, the scan never breaks: the
final `before` is the last sample and there is no `after`. -/
theorem findBracket_all_lt (t : ℚ) :
    ∀ (l : List PoseRec) (x : PoseRec), (∀ p ∈ l, p.timestamp < t) →
      findBracket t l (some x) =
        (some ((x :: l).getLast (List.cons_ne_nil x l)), none) := by
  intro l
  induction l with
  | nil => intro x _; simp [findBracket]
  | cons p rest ih =>
      intro x hall
      have hp : p.timestamp < t := hall p (List.mem_cons_self p rest)
      rw [findBracket_cons, if_neg (not_le.mpr hp), if_pos hp.le,
        ih p (fun q hq => hall q (List.mem_cons_of_mem p hq))]
      simp [List.getLast_cons]

theorem mem_sortPoses (x : PoseRec) (poses : List PoseRec) :
    x ∈ sortPoses poses ↔ x ∈ poses :=
  (List.perm_insertionSort poseLE poses).mem_iff

theorem length_sortPoses (poses : List PoseRec) :
    (sortPoses poses).length = poses.length :=
  List.length_insertionSort poseLE poses

theorem sorted_sortPoses (poses : List PoseRec) :
    List.Sorted poseLE (sortPoses poses) :=
  List.sorted_insertionSort poseLE poses

/-- In a list sorted by timestamp, every element's timestamp is at most the
last element's. -/
theorem sorted_le_getLast :
    ∀ (l : List PoseRec) (h : l ≠ []), List.Sorted poseLE l →
      ∀ q ∈ l, q.timestamp ≤ (l.getLast h).timestamp := by
  intro l
  induction l with
  | nil => intro h; exact absurd rfl h
  | cons x rest ih =>
      intro h hs q hq
      cases rest with
      | nil =>
          rw [List.mem_singleton] at hq
          subst hq
          exact le_refl _
      | cons y rest2 =>
          rw [List.getLast_cons (List.cons_ne_nil y rest2)]
          rcases List.mem_cons.mp hq with hqx | hqr
          · subst hqx
            exact (List.sorted_cons.mp hs).1 _ (List.getLast_mem (List.cons_ne_nil y rest2))
          · exact ih (List.cons_ne_nil y rest2) (List.sorted_cons.mp hs).2 q hqr

/-- Unfolding of `interpolate_pose` once the sorted list shape is known. -/
theorem interpolate_pose_eq_match (t : ℚ) (poses : List PoseRec) (s0 : PoseRec)
    (rest : List PoseRec) (hlen : ¬ poses.length < 2)
    (hs : sortPoses poses = s0 :: rest) :
    interpolate_pose t poses =
      match findBracket t (s0 :: rest) none with
      | (none, _) => some s0
      | (some _, none) => some ((s0 :: rest).getLast (List.cons_ne_nil s0 rest))
      | (some before_pose, some after_pose) =>
          some (lerpPose t before_pose after_pose) := by
  unfold interpolate_pose
  rw [if_neg hlen, hs]

/-- The interpolation branch once a bracketing pair has been found. -/
theorem interpolate_pose_eq_lerp (t : ℚ) (poses : List PoseRec) (b a : PoseRec)
    (hlen : 2 ≤ poses.length)
    (hbr : findBracket t (sortPoses poses) none = (some b, some a)) :
    interpolate_pose t poses = some (lerpPose t b a) := by
  have hlen' : ¬ poses.length < 2 := not_lt.mpr hlen
  cases hs : sortPoses poses with
  | nil =>
      have hll := length_sortPoses poses
      rw [hs] at hll
      simp at hll
      omega
  | cons s0 rest =>
      rw [hs] at hbr
      rw [interpolate_pose_eq_match t poses s0 rest hlen' hs, hbr]

/-- C9: pose interpolation rejects fewer than two samples; the bracketing
scan only ever returns a pair enclosing the frame timestamp; when it does,
the result is the linear interpolation of the two bracketing samples by
ratio `(t - t1)/(t2 - t1)` on latitude/longitude/altitude and on
yaw/pitch/roll when both endpoints carry them; and a timestamp before every
sample (resp. after every sample) yields the earliest (resp. latest)
sample itself, with no extrapolation. -/
theorem interpolate_pose_spec :
    (∀ (t : ℚ) (poses : List PoseRec), poses.length < 2 →
        interpolate_pose t poses = none) ∧
    (∀ (t : ℚ) (l : List PoseRec) (b a : PoseRec),
        findBracket t l none = (some b, some a) →
        b.timestamp ≤ t ∧ t ≤ a.timestamp) ∧
    (∀ (t : ℚ) (poses : List PoseRec) (b a : PoseRec), 2 ≤ poses.length →
        findBracket t (sortPoses poses) none = (some b, some a) →
        b.timestamp ≠ a.timestamp →
        interpolate_pose t poses = some (lerpPose t b a) ∧
        (lerpPose t b a).latitude =
          b.latitude + (t - b.timestamp) / (a.timestamp - b.timestamp) *
            (a.latitude - b.latitude) ∧
        (lerpPose t b a).longitude =
          b.longitude + (t - b.timestamp) / (a.timestamp - b.timestamp) *
            (a.longitude - b.longitude) ∧
        (lerpPose t b a).altitude =
          b.altitude + (t - b.timestamp) / (a.timestamp - b.timestamp) *
            (a.altitude - b.altitude) ∧
        (∀ y1 y2, b.yaw = some y1 → a.yaw = some y2 →
          (lerpPose t b a).yaw =
            some (y1 + (t - b.timestamp) / (a.timestamp - b.timestamp) * (y2 - y1))) ∧
        (∀ p1 p2, b.pitch = some p1 → a.pitch = some p2 →
          (lerpPose t b a).pitch =
            some (p1 + (t - b.timestamp) / (a.timestamp - b.timestamp) * (p2 - p1))) ∧
        (∀ r1 r2, b.roll = some r1 → a.roll = some r2 →
          (lerpPose t b a).roll =
            some (r1 + (t - b.timestamp) / (a.timestamp - b.timestamp) * (r2 - r1)))) ∧
    (∀ (t : ℚ) (poses : List PoseRec), 2 ≤ poses.length →
        (∀ p ∈ poses, t < p.timestamp) →
        ∃ r, interpolate_pose t poses = some r ∧ r ∈ poses ∧
          ∀ q ∈ poses, r.timestamp ≤ q.timestamp) ∧
    (∀ (t : ℚ) (poses : List PoseRec), 2 ≤ poses.length →
        (∀ p ∈ poses, p.timestamp < t) →
        ∃ r, interpolate_pose t poses = some r ∧ r ∈ poses ∧
          ∀ q ∈ poses, q.timestamp ≤ r.timestamp) := by
  refine ⟨?_, ?_, ?_, ?_, ?_⟩
  · intro t poses h
    unfold interpolate_pose
    rw [if_pos h]
  · intro t l b a hbr
    obtain ⟨h1, h2⟩ := findBracket_inv t l none (fun x hx => Option.noConfusion hx)
    exact ⟨h1 b (by rw [hbr]), h2 a (by rw [hbr])⟩
  · intro t poses b a hlen hbr hne
    have hne' : a.timestamp ≠ b.timestamp := fun e => hne e.symm
    refine ⟨interpolate_pose_eq_lerp t poses b a hlen hbr, ?_, ?_, ?_, ?_, ?_, ?_⟩
    · simp [lerpPose, hne']
    · simp [lerpPose, hne']
    · simp [lerpPose, hne']
    · intro y1 y2 hy1 hy2
      simp [lerpPose, hne', hy1, hy2]
    · intro p1 p2 hp1 hp2
      simp [lerpPose, hne', hp1, hp2]
    · intro r1 r2 hr1 hr2
      simp [lerpPose, hne', hr1, hr2]
  · intro t poses hlen hall
    have hlen' : ¬ poses.length < 2 := not_lt.mpr hlen
    cases hs : sortPoses poses with
    | nil =>
        have hll := length_sortPoses poses
        rw [hs] at hll
        simp at hll
        omega
    | cons s0 rest =>
        have hs0mem : s0 ∈ poses := by
          rw [← mem_sortPoses _ poses, hs]
          exact List.mem_cons_self s0 rest
        have hts0 : t < s0.timestamp := hall s0 hs0mem
        have hbr : findBracket t (s0 :: rest) none = (none, some s0) := by
          rw [findBracket_cons, if_pos hts0.le, if_neg (not_le.mpr hts0)]
        refine ⟨s0, ?_, hs0mem, ?_⟩
        · rw [interpolate_pose_eq_match t poses s0 rest hlen' hs, hbr]
        · intro q hq
          have hqmem : q ∈ s0 :: rest := by
            rw [← hs]
            exact (mem_sortPoses q poses).mpr hq
          rcases List.mem_cons.mp hqmem with h1 | h2
          · rw [h1]
          · have hsorted := sorted_sortPoses poses
            rw [hs] at hsorted
            exact (List.sorted_cons.mp hsorted).1 q h2
  · intro t poses hlen hall
    have hlen' : ¬ poses.length < 2 := not_lt.mpr hlen
    cases hs : sortPoses poses with
    | nil =>
        have hll := length_sortPoses poses
        rw [hs] at hll
        simp at hll
        omega
    | cons s0 rest =>
        have hs0mem : s0 ∈ poses := by
          rw [← mem_sortPoses _ poses, hs]
          exact List.mem_cons_self s0 rest
        have hts0 : s0.timestamp < t := hall s0 hs0mem
        have hrest : ∀ q ∈ rest, q.timestamp < t := by
          intro q hq
          refine hall q ?_
          rw [← mem_sortPoses _ poses, hs]
          exact List.mem_cons_of_mem s0 hq
        have hbr : findBracket t (s0 :: rest) none =
            (some ((s0 :: rest).getLast (List.cons_ne_nil s0 rest)), none) := by
          rw [findBracket_cons, if_neg (not_le.mpr hts0), if_pos hts0.le]
          exact findBracket_all_lt t rest s0 hrest
        refine ⟨(s0 :: rest).getLast (List.cons_ne_nil s0 rest), ?_, ?_, ?_⟩
        · rw [interpolate_pose_eq_match t poses s0 rest hlen' hs, hbr]
        · rw [← mem_sortPoses _ poses, hs]
          exact List.getLast_mem (List.cons_ne_nil s0 rest)
        · intro q hq
          have hqmem : q ∈ s0 :: rest := by
            rw [← hs]
            exact (mem_sortPoses q poses).mpr hq
          have hsorted := sorted_sortPoses poses
          rw [hs] at hsorted
          exact sorted_le_getLast (s0 :: rest) (List.cons_ne_nil s0 rest) hsorted q hqmem

/-- Witness for C9: samples at 0 ms and 10 ms bracket the frame timestamp
4 ms and the interpolated sample is produced. -/
theorem interpolate_pose_spec_witness :
    (2 ≤ ([poseT0, poseT10] : List PoseRec).length ∧
      findBracket 4 (sortPoses [poseT0, poseT10]) none = (some poseT0, some poseT10) ∧
      poseT0.timestamp ≠ poseT10.timestamp) ∧
    interpolate_pose 4 [poseT0, poseT10] = some (lerpPose 4 poseT0 poseT10) := by
  have hsort : sortPoses [poseT0, poseT10] = [poseT0, poseT10] := by
    norm_num [sortPoses, List.insertionSort, List.orderedInsert, poseLE, poseT0, poseT10]
  have hbr : findBracket 4 (sortPoses [poseT0, poseT10]) none =
      (some poseT0, some poseT10) := by
    rw [hsort]
    norm_num [findBracket_cons, poseT0, poseT10]
  have hne : poseT0.timestamp ≠ poseT10.timestamp := by
    norm_num [poseT0, poseT10]
  exact ⟨⟨by norm_num, hbr, hne⟩,
    (interpolate_pose_spec.2.2.1 4 [poseT0, poseT10] poseT0 poseT10 (by norm_num)
      hbr hne).1⟩

/-- C10: with at least two samples, pose interpolation always produces a
result — the interpolation ratio's division is guarded — and when the
bracketing samples share a timestamp the guarded ratio 0 reproduces the
earlier (`before`) sample's position fields. -/
theorem interpolate_pose_total_guarded :
    (∀ (t : ℚ) (poses : List PoseRec), 2 ≤ poses.length →
        (interpolate_pose t poses).isSome = true) ∧
    (∀ (t : ℚ) (poses : List PoseRec) (b a : PoseRec), 2 ≤ poses.length →
        findBracket t (sortPoses poses) none = (some b, some a) →
        a.timestamp = b.timestamp →
        interpolate_pose t poses = some (lerpPose t b a) ∧
        (lerpPose t b a).latitude = b.latitude ∧
        (lerpPose t b a).longitude = b.longitude ∧
        (lerpPose t b a).altitude = b.altitude) := by
  constructor
  · intro t poses hlen
    have hlen' : ¬ poses.length < 2 := not_lt.mpr hlen
    cases hs : sortPoses poses with
    | nil =>
        have hll := length_sortPoses poses
        rw [hs] at hll
        simp at hll
        omega
    | cons s0 rest =>
        rw [interpolate_pose_eq_match t poses s0 rest hlen' hs]
        rcases findBracket t (s0 :: rest) none with ⟨bo, ao⟩
        cases bo <;> cases ao <;> rfl
  · intro t poses b a hlen hbr heq
    refine ⟨interpolate_pose_eq_lerp t poses b a hlen hbr, ?_, ?_, ?_⟩ <;>
      simp [lerpPose, heq]

/-- Witness for C10: two samples sharing timestamp 5 still interpolate
(totally), reproducing the first sample's position. -/
theorem interpolate_pose_total_guarded_witness :
    (2 ≤ ([poseDupA, poseDupB] : List PoseRec).length ∧
      findBracket 5 (sortPoses [poseDupA, poseDupB]) none =
        (some poseDupA, some poseDupA) ∧
      poseDupA.timestamp = poseDupA.timestamp) ∧
    (interpolate_pose 5 [poseDupA, poseDupB] = some (lerpPose 5 poseDupA poseDupA) ∧
      (lerpPose 5 poseDupA poseDupA).latitude = poseDupA.latitude ∧
      (lerpPose 5 poseDupA poseDupA).longitude = poseDupA.longitude ∧
      (lerpPose 5 poseDupA poseDupA).altitude = poseDupA.altitude) := by
  have hsort : sortPoses [poseDupA, poseDupB] = [poseDupA, poseDupB] := by
    norm_num [sortPoses, List.insertionSort, List.orderedInsert, poseLE, poseDupA, poseDupB]
  have hbr : findBracket 5 (sortPoses [poseDupA, poseDupB]) none =
      (some poseDupA, some poseDupA) := by
    rw [hsort]
    norm_num [findBracket_cons, poseDupA, poseDupB]
  exact ⟨⟨by norm_num, hbr, rfl⟩,
    interpolate_pose_total_guarded.2 5 [poseDupA, poseDupB] poseDupA poseDupA
      (by norm_num) hbr rfl⟩

/-! ### Claim theorems: 3D transform geometry -/

/-- C1 counterexample: the world ray `(1, 0, 0)` is parallel to the ground
(`ray_z = 0`, so `|ray_z| < 1e-6`), yet the intersection step still
produces an output entry for it — the substitute ground point `(0, 0)` —
rather than no result. -/
theorem ray_ground_intersection_parallel_output :
    ray_ground_intersection [⟨1, 0, 0⟩] 100 = [((0 : ℝ), (0 : ℝ))] := by
  have hz : |(Vec3.mk 1 0 0).z| < 1e-6 := by norm_num
  simp [ray_ground_intersection, hz]

/-- C1 (amended): the intersection step emits exactly one entry per input
ray; a ray with `|ray_z| < 1e-6` or `t = -altitude/ray_z < 0` is logged and
contributes the substitute point `(0, 0)` — mapping that pixel to the
drone's own position downstream — rather than being omitted, while every
other ray contributes `(t * ray_x, t * ray_y)`. -/
theorem ray_ground_intersection_substitute :
    (∀ (rays : List Vec3) (altitude : ℝ),
        (ray_ground_intersection rays altitude).length = rays.length) ∧
    (∀ (rays : List Vec3) (altitude : ℝ) (i : ℕ) (r : Vec3),
        rays[i]? = some r → (|r.z| < 1e-6 ∨ -altitude / r.z < 0) →
        (ray_ground_intersection rays altitude)[i]? = some ((0 : ℝ), (0 : ℝ))) ∧
    (∀ (rays : List Vec3) (altitude : ℝ) (i : ℕ) (r : Vec3),
        rays[i]? = some r → ¬ |r.z| < 1e-6 → ¬ -altitude / r.z < 0 →
        (ray_ground_intersection rays altitude)[i]? =
          some (-altitude / r.z * r.x, -altitude / r.z * r.y)) := by
  refine ⟨?_, ?_, ?_⟩
  · intro rays altitude
    simp [ray_ground_intersection]
  · intro rays altitude i r hi hrej
    unfold ray_ground_intersection
    rw [List.getElem?_map, hi, Option.map_some']
    rcases hrej with hpar | hneg
    · rw [if_pos hpar]
    · by_cases hpar : |r.z| < 1e-6
      · rw [if_pos hpar]
      · rw [if_neg hpar]
        simp only
        rw [if_pos hneg]
  · intro rays altitude i r hi hpar hneg
    unfold ray_ground_intersection
    rw [List.getElem?_map, hi, Option.map_some']
    rw [if_neg hpar]
    simp only
    rw [if_neg hneg]

/-- Witness for C1 (amended): the parallel ray `(1, 0, 0)` at altitude 100
yields the substitute entry. -/
theorem ray_ground_intersection_substitute_witness :
    (([⟨1, 0, 0⟩] : List Vec3)[0]? = some ⟨1, 0, 0⟩ ∧
      (|(Vec3.mk 1 0 0).z| < 1e-6 ∨ -(100 : ℝ) / (Vec3.mk 1 0 0).z < 0)) ∧
    (ray_ground_intersection [⟨1, 0, 0⟩] 100)[0]? = some ((0 : ℝ), (0 : ℝ)) :=
  ⟨⟨rfl, Or.inl (by norm_num)⟩,
   ray_ground_intersection_substitute.2.1 [⟨1, 0, 0⟩] 100 0 ⟨1, 0, 0⟩ rfl
     (Or.inl (by norm_num))⟩

/-- C8 (divergence witness): at yaw 90°, pitch 90°, roll 0° the numpy
fallback (intrinsic Z-Y-X, `R_z @ R_y @ R_x`) and the scipy construction
(lower-case `zyx`, i.e. extrinsic, `R_x @ R_y @ R_z`) give different
matrices: entry (0,1) is −1 versus 0.  This contradicts the module's own
documentation (`欧拉角顺序: ZYX (Yaw-Pitch-Roll)`, and the comment
`R = R_z(yaw) @ R_y(pitch) @ R_x(roll)` above the fallback). -/
theorem rotation_matrix_scipy_numpy_diverge :
    (build_rotation_matrix_numpy 90 90 0).m01 = -1 ∧
    (build_rotation_matrix_scipy 90 90 0).m01 = 0 ∧
    build_rotation_matrix_numpy 90 90 0 ≠ build_rotation_matrix_scipy 90 90 0 := by
  have hrad : radians 90 = Real.pi / 2 := by unfold radians; ring
  have hrad0 : radians 0 = 0 := by unfold radians; ring
  have hcos : Real.cos (radians 90) = 0 := by rw [hrad, Real.cos_pi_div_two]
  have hsin : Real.sin (radians 90) = 1 := by rw [hrad, Real.sin_pi_div_two]
  have h1 : (build_rotation_matrix_numpy 90 90 0).m01 = -1 := by
    simp [build_rotation_matrix_numpy, mat3Mul, rotZ, rotY, rotX, hcos, hsin, hrad0]
  have h2 : (build_rotation_matrix_scipy 90 90 0).m01 = 0 := by
    simp [build_rotation_matrix_scipy, mat3Mul, rotZ, rotY, rotX, hcos, hsin, hrad0]
  refine ⟨h1, h2, fun hcontra => ?_⟩
  have := congrArg Mat3.m01 hcontra
  rw [h1, h2] at this
  norm_num at this

/-- The cosine of −90° in radians vanishes. -/
theorem cos_radians_neg_ninety : Real.cos (radians (-90)) = 0 := by
  have h : radians (-90) = -(Real.pi / 2) := by unfold radians; ring
  rw [h, Real.cos_neg, Real.cos_pi_div_two]

/-- The image-center pixel maps to the camera ray `(0, 0, 1)`. -/
theorem pixel_to_camera_ray_center (cx cy f : ℝ) :
    pixel_to_camera_ray cx cy f (cx, cy) = ⟨0, 0, 1⟩ := by
  unfold pixel_to_camera_ray
  norm_num [Real.sqrt_one]

/-- The center camera ray points along the negative body-Z axis. -/
theorem camera_to_body_center : camera_to_body ⟨0, 0, 1⟩ = ⟨0, 0, -1⟩ := by
  simp [camera_to_body, mat3Act, R_cam_to_body]

/-- With pitch −90° and roll 0°, the world ray of the image center is
horizontal-free: its vertical component is exactly 0 (for every yaw). -/
theorem center_world_ray_z (yaw : ℝ) :
    (mat3Act (build_rotation_matrix_numpy yaw (-90) 0) ⟨0, 0, -1⟩).z = 0 := by
  simp [mat3Act, build_rotation_matrix_numpy, mat3Mul, rotZ, rotY, rotX,
    cos_radians_neg_ninety]

/-- C5: for every pose with pitch exactly −90° and roll 0° that passes the
GPS quality gate, the 3D transform maps the image-center pixel to exactly
the drone's own latitude/longitude — in particular within 1e-4 degrees. -/
theorem pixel_to_geo_3d_center_nadir (cam : CameraIntrinsics) (qc : QualityConfig)
    (pose : Pose3D) (hp : pose.pitch = -90) (hr : pose.roll = 0)
    (hq : (evaluate_gps_quality qc pose).2.1 = false) :
    ∃ c : ℝ × ℝ, pixel_to_geo_3d cam qc [(cam.cx, cam.cy)] pose = [c] ∧
      |c.1 - pose.latitude| ≤ 1e-4 ∧ |c.2 - pose.longitude| ≤ 1e-4 := by
  refine ⟨(pose.latitude, pose.longitude), ?_,
    by rw [sub_self, abs_zero]; norm_num, by rw [sub_self, abs_zero]; norm_num⟩
  have hz := center_world_ray_z pose.yaw
  have habs : |(mat3Act (build_rotation_matrix_numpy pose.yaw (-90) 0)
      ⟨0, 0, -1⟩).z| < 1e-6 := by
    rw [hz]
    norm_num
  simp only [pixel_to_geo_3d, hq, Bool.false_eq_true, if_false, hp, hr,
    List.map_cons, List.map_nil, pixel_to_camera_ray_center, camera_to_body_center,
    body_to_world, ray_ground_intersection, convert_wgs84_to_cgcs2000,
    offset_to_latlon, if_pos habs]
  norm_num

/-- Witness for C5: the repository's nadir test pose (pitch −90°, roll 0°,
strong plain GPS) with the test camera. -/
theorem pixel_to_geo_3d_center_nadir_witness :
    (poseNadir.pitch = -90 ∧ poseNadir.roll = 0 ∧
      (evaluate_gps_quality qcTest poseNadir).2.1 = false) ∧
    ∃ c : ℝ × ℝ,
      pixel_to_geo_3d camTest qcTest [(camTest.cx, camTest.cy)] poseNadir = [c] ∧
      |c.1 - poseNadir.latitude| ≤ 1e-4 ∧ |c.2 - poseNadir.longitude| ≤ 1e-4 := by
  have hq : (evaluate_gps_quality qcTest poseNadir).2.1 = false := by
    norm_num [evaluate_gps_quality, qcTest, poseNadir]
    rfl
  exact ⟨⟨rfl, rfl, hq⟩, pixel_to_geo_3d_center_nadir camTest qcTest poseNadir rfl rfl hq⟩

end Shimahe
